import Mathlib

/-
Verification of the EMA signal bot (src/ema_signal_bot.py) against its
specification.  Prices, which the Python code handles as floats, are
embedded as exact rationals (ℚ); the stored JSON document is embedded as a
structure of optional fields plus a list of unknown extra keys.
-/

/-- Trade side, as stored in `pair_state["side"]` ("BUY" / "SELL"). -/
inductive Side
  | buy
  | sell
deriving DecidableEq

/-- Per-instrument state: the `{"in_trade": ..., "side": ...}` dict. -/
structure PairState where
  in_trade : Bool
  side : Option Side
deriving DecidableEq

/-- The freshly created pair state `{"in_trade": False, "side": None}`. -/
def initPairState : PairState := ⟨false, none⟩

/-- The four price inputs consumed by the crossover logic of
`evaluate_pair`: previous close, latest close, latest TrendEMA value,
latest EntryEMA value. -/
structure SignalInput where
  prevClose : ℚ
  close : ℚ
  trend : ℚ
  entry : ℚ
deriving DecidableEq

/-- The crossover state machine: lines 142-168 of `evaluate_pair`.
Returns the updated pair state and the alert message, if any.
The BUY block runs only under `close > trend`, the SELL block only under
`close < trend` (an `elif`); each inner branch mirrors the source. -/
def signalStep (inp : SignalInput) (ps : PairState) : PairState × Option String :=
  if inp.close > inp.trend then
    if !ps.in_trade then
      if inp.prevClose ≤ inp.entry ∧ inp.close > inp.entry then
        (⟨true, some Side.buy⟩, some "BUY NOW")
      else (ps, none)
    else
      if ps.side = some Side.buy then
        if inp.prevClose ≥ inp.entry ∧ inp.close < inp.entry then
          (⟨false, none⟩, some "EXIT BUY")
        else (ps, none)
      else (ps, none)
  else if inp.close < inp.trend then
    if !ps.in_trade then
      if inp.prevClose ≥ inp.entry ∧ inp.close < inp.entry then
        (⟨true, some Side.sell⟩, some "SELL NOW")
      else (ps, none)
    else
      if ps.side = some Side.sell then
        if inp.prevClose ≤ inp.entry ∧ inp.close > inp.entry then
          (⟨false, none⟩, some "EXIT SELL")
        else (ps, none)
      else (ps, none)
  else (ps, none)

/-- The smoothing factor of `ewm(span=period, adjust=False)`:
`k = 2 / (period + 1)`. -/
def emaK (period : ℕ) : ℚ := 2 / (period + 1)

/-- The tail of the EMA recurrence: given the previous EMA value,
`y = x * k + prev * (1 - k)` for each further close. -/
def emaFrom (k : ℚ) : ℚ → List ℚ → List ℚ
  | _, [] => []
  | prev, x :: xs => (x * k + prev * (1 - k)) :: emaFrom k (x * k + prev * (1 - k)) xs

/-- `add_ema` / `ewm(span=period, adjust=False).mean()` on the close
column: the EMA series is seeded with the first close and then follows
the recurrence `value[i] = close[i] * k + value[i-1] * (1 - k)`. -/
def computeEMA (period : ℕ) : List ℚ → List ℚ
  | [] => []
  | x :: xs => x :: emaFrom (emaK period) x xs

/-- Python dict lookup `m[key]` / `m.get(key)` for a string-keyed map
represented as an association list. -/
def lookupKey {α : Type} : List (String × α) → String → Option α
  | [], _ => none
  | (k, v) :: rest, key => if k = key then some v else lookupKey rest key

/-- Python dict assignment `m[key] = v`: replaces the value if the key
exists, otherwise appends the new key (Python dicts keep insertion order). -/
def setKey {α : Type} : List (String × α) → String → α → List (String × α)
  | [], key, v => [(key, v)]
  | (k, w) :: rest, key, v =>
    if k = key then (key, v) :: rest else (k, w) :: setKey rest key v

/-- Python `m.setdefault(key, v)`: inserts `v` only when the key is absent. -/
def setDefaultKey {α : Type} (m : List (String × α)) (key : String) (v : α) :
    List (String × α) :=
  if (lookupKey m key).isSome then m else m ++ [(key, v)]

/-- The in-memory `state` dict: the known configuration keys, the
per-pair map, and any unknown extra keys carried along verbatim. -/
structure BotState where
  running : Bool
  pairs : List String
  trend_ema : Int
  entry_exit_ema : Int
  timeframe : String
  per_pair : List (String × PairState)
  default_chat_id : Option Int
  extra : List (String × String)
deriving DecidableEq

/-- The module-level `default_state` dict (PAIRS = ["EURUSD"],
TREND_EMA = 32, ENTRY_EXIT_EMA = 14, TIMEFRAME = "15min"). -/
def default_state : BotState :=
  { running := false
    pairs := ["EURUSD"]
    trend_ema := 32
    entry_exit_ema := 14
    timeframe := "15min"
    per_pair := []
    default_chat_id := none
    extra := [] }

/-- A stored JSON document (`bot_state.json`): each known key may be
absent, and unknown extra keys are kept as an opaque list. -/
structure StoredDoc where
  running? : Option Bool
  pairs? : Option (List String)
  trend_ema? : Option Int
  entry_exit_ema? : Option Int
  timeframe? : Option String
  per_pair? : Option (List (String × PairState))
  default_chat_id? : Option (Option Int)
  extra : List (String × String)
deriving DecidableEq

/-- `load_state()`: if the state file exists, read it and fill every
key of `default_state` missing from the document; otherwise copy the
defaults and seed `per_pair` with a fresh entry for every default pair
(`for p in s["pairs"]: s["per_pair"].setdefault(p, ...)`). -/
def load_state (file : Option StoredDoc) : BotState :=
  match file with
  | some doc =>
      { running := doc.running?.getD default_state.running
        pairs := doc.pairs?.getD default_state.pairs
        trend_ema := doc.trend_ema?.getD default_state.trend_ema
        entry_exit_ema := doc.entry_exit_ema?.getD default_state.entry_exit_ema
        timeframe := doc.timeframe?.getD default_state.timeframe
        per_pair := doc.per_pair?.getD default_state.per_pair
        default_chat_id := doc.default_chat_id?.getD default_state.default_chat_id
        extra := doc.extra }
  | none =>
      { default_state with
        per_pair :=
          default_state.pairs.foldl
            (fun m p => setDefaultKey m p initPairState) default_state.per_pair }

/-- `save_state(s)`: `json.dump` writes the whole dict, so every known
key is present in the written document and the extra keys are dumped
unchanged. -/
def save_state (s : BotState) : StoredDoc :=
  { running? := some s.running
    pairs? := some s.pairs
    trend_ema? := some s.trend_ema
    entry_exit_ema? := some s.entry_exit_ema
    timeframe? := some s.timeframe
    per_pair? := some s.per_pair
    default_chat_id? := some s.default_chat_id
    extra := s.extra }

/-- The durable file contents readable after a crash at each point of
`save_state`: `open(STATE_FILE, "w")` truncates the file in place to the
empty string before `json.dump` writes the serialized document, so the
crash points are (0) just after the truncating open — content "" — and
(1) after the dump completes — the new serialized document.  There is no
write-to-temporary-then-rename step in the source. -/
def save_state_crash_contents (serialized : String) : List String :=
  ["", serialized]

/-- The last close of the fetched series (`df.iloc[-1]["Close"]`). -/
def latestClose (closes : List ℚ) : ℚ := closes.getLastD 0

/-- `df.iloc[-2]["Close"] if len(df) >= 2 else latest`. -/
def prevCloseOf (closes : List ℚ) : ℚ :=
  if 2 ≤ closes.length then (closes[closes.length - 2]?).getD (latestClose closes)
  else latestClose closes

/-- The four inputs `evaluate_pair` hands to the crossover logic, for a
given bot state (EMA periods) and fetched close series: the TrendEMA and
EntryEMA columns are the EMA series of the closes, read at the last row. -/
def mkInput (s : BotState) (closes : List ℚ) : SignalInput :=
  { prevClose := prevCloseOf closes
    close := latestClose closes
    trend := (computeEMA s.trend_ema.toNat closes).getLastD 0
    entry := (computeEMA s.entry_exit_ema.toNat closes).getLastD 0 }

/-- Observable outcome of one `evaluate_pair` call: the in-memory state
afterwards, the alert messages actually delivered, whether `save_state`
ran, and whether an exception propagated out of the call. -/
structure EvalOutcome where
  state : BotState
  delivered : List String
  saved : Bool
  raised : Bool
deriving DecidableEq

/-- `evaluate_pair(pair, chat_id)`, lines 125-171.  `fetched` is the
result of `fetch_ohlc_fx` (close column), `deliverOk` tells whether
`bot.send_message` succeeds.  Mirrors the source control flow:
* `df is None or df.empty` → early return, nothing mutated, no save;
* `ewm(span=period)` raises for a period < 1 (pandas precondition),
  before any state mutation;
* otherwise the pair state is `setdefault`-ed to `initPairState`, the
  crossover step runs, and the mutated pair state is stored in the map
  (the mutation happens in place, before the alert is sent);
* if an alert was produced and delivery raises, the exception propagates
  before line 171, so `save_state` does not run; otherwise it runs. -/
def evaluate_pair (deliverOk : Bool) (fetched : Option (List ℚ)) (pair : String)
    (s : BotState) : EvalOutcome :=
  match fetched with
  | none => ⟨s, [], false, false⟩
  | some closes =>
    if closes.isEmpty then ⟨s, [], false, false⟩
    else if s.trend_ema < 1 ∨ s.entry_exit_ema < 1 then ⟨s, [], false, true⟩
    else
      let res := signalStep (mkInput s closes)
        ((lookupKey s.per_pair pair).getD initPairState)
      let s' := { s with per_pair := setKey s.per_pair pair res.1 }
      match res.2 with
      | none => ⟨s', [], true, false⟩
      | some msg =>
        if deliverOk then ⟨s', [msg], true, false⟩ else ⟨s', [], false, true⟩

/-- One pass of the inner `for p in state.get("pairs", [])` loop of
`monitoring_loop`: each pair is evaluated under its own `try/except`, so
an exception in one evaluation never stops the remaining pairs. -/
def runCycle (deliverOk : Bool) (fetch : String → Option (List ℚ)) :
    BotState → List String → BotState × List String
  | s, [] => (s, [])
  | s, p :: rest =>
    let r := evaluate_pair deliverOk (fetch p) p s
    let next := runCycle deliverOk fetch r.state rest
    (next.1, r.delivered ++ next.2)

/-- `/setema` handler (`set_ema_command`), after argument splitting:
`which` is `args[0].lower()`, `val?` is the result of `int(args[1])`
(`none` when parsing raised).  Returns the new state and whether
`save_state` was called.  The parsed integer is stored as-is — there is
no `val >= 1` check anywhere in the handler. -/
def set_ema_command (which : String) (val? : Option Int) (s : BotState) :
    BotState × Bool :=
  match val? with
  | none => (s, false)
  | some val =>
    if which = "trend" then ({ s with trend_ema := val }, true)
    else if which = "entry" ∨ which = "exit" ∨ which = "entry_exit" then
      ({ s with entry_exit_ema := val }, true)
    else (s, false)

/-- `/add` handler (`add_pair_command`) for an upper-cased pair name:
if already watched, nothing changes; otherwise the pair is appended to
the watchlist and its state is seeded with `setdefault`. -/
def add_pair_command (pair : String) (s : BotState) : BotState :=
  if pair ∈ s.pairs then s
  else { s with pairs := s.pairs ++ [pair]
                per_pair := setDefaultKey s.per_pair pair initPairState }

/-- The pair state before step `n` of a run of the crossover machine on
an input stream: `stateAt 0` is the initial state, and step `n` applies
`signalStep` with `inputs n`. -/
def stateAt (s0 : PairState) (inputs : ℕ → SignalInput) : ℕ → PairState
  | 0 => s0
  | n + 1 => (signalStep (inputs n) (stateAt s0 inputs n)).1

/-- The alert emitted by step `n` of the run. -/
def alertAt (s0 : PairState) (inputs : ℕ → SignalInput) (n : ℕ) : Option String :=
  (signalStep (inputs n) (stateAt s0 inputs n)).2

/-! ### Helper lemmas -/

theorem signalStep_inv (inp : SignalInput) (ps : PairState)
    (h : ps.side = none ↔ ps.in_trade = false) :
    ((signalStep inp ps).1.side = none ↔ (signalStep inp ps).1.in_trade = false) := by
  unfold signalStep
  split_ifs <;> simp_all

theorem signalStep_buyNow_pre (inp : SignalInput) (ps : PairState)
    (h : (signalStep inp ps).2 = some "BUY NOW") : ps.in_trade = false := by
  unfold signalStep at h
  split_ifs at h <;> simp_all

theorem signalStep_sellNow_pre (inp : SignalInput) (ps : PairState)
    (h : (signalStep inp ps).2 = some "SELL NOW") : ps.in_trade = false := by
  unfold signalStep at h
  split_ifs at h <;> simp_all

theorem stateAt_inv (s0 : PairState) (inputs : ℕ → SignalInput)
    (h : s0.side = none ↔ s0.in_trade = false) (n : ℕ) :
    ((stateAt s0 inputs n).side = none ↔ (stateAt s0 inputs n).in_trade = false) := by
  induction n with
  | zero => exact h
  | succ n ih => exact signalStep_inv (inputs n) (stateAt s0 inputs n) ih

theorem PairState.eq_init (ps : PairState) (h1 : ps.in_trade = false)
    (h2 : ps.side = none) : ps = initPairState := by
  cases ps
  simp_all [initPairState]

theorem emaFrom_length (k prev : ℚ) (xs : List ℚ) :
    (emaFrom k prev xs).length = xs.length := by
  induction xs generalizing prev with
  | nil => rfl
  | cons x xs ih => simp [emaFrom, ih]

theorem emaFrom_head (k prev : ℚ) (xs : List ℚ) :
    (emaFrom k prev xs)[0]? = xs[0]?.map (fun c => c * k + prev * (1 - k)) := by
  cases xs <;> simp [emaFrom]

theorem emaFrom_succ (k : ℚ) (xs : List ℚ) : ∀ (prev : ℚ) (i : ℕ) (c y : ℚ),
    xs[i + 1]? = some c → (emaFrom k prev xs)[i]? = some y →
    (emaFrom k prev xs)[i + 1]? = some (c * k + y * (1 - k)) := by
  induction xs with
  | nil => intro prev i c y hc _; simp at hc
  | cons x xs ih =>
    intro prev i c y hc hy
    cases i with
    | zero =>
      simp only [emaFrom, List.getElem?_cons_succ, List.getElem?_cons_zero,
        Option.some.injEq] at hc hy ⊢
      rw [emaFrom_head, hc]
      simp [hy]
    | succ i' =>
      simp only [emaFrom, List.getElem?_cons_succ] at hc hy ⊢
      exact ih _ i' c y hc hy

theorem lookupKey_setKey {α : Type} (l : List (String × α)) (k : String) (v : α) :
    lookupKey (setKey l k v) k = some v := by
  induction l with
  | nil => simp [setKey, lookupKey]
  | cons kv rest ih =>
    by_cases h : kv.1 = k <;> simp [setKey, lookupKey, h, ih]

theorem setKey_setKey {α : Type} (l : List (String × α)) (k : String) (v w : α) :
    setKey (setKey l k v) k w = setKey l k w := by
  induction l with
  | nil => simp [setKey]
  | cons kv rest ih =>
    by_cases h : kv.1 = k <;> simp [setKey, h, ih]

theorem evaluate_pair_some (deliverOk : Bool) (closes : List ℚ) (pair : String)
    (s : BotState) (hne : closes.isEmpty = false)
    (hg : ¬(s.trend_ema < 1 ∨ s.entry_exit_ema < 1)) :
    evaluate_pair deliverOk (some closes) pair s =
      (let res := signalStep (mkInput s closes)
        ((lookupKey s.per_pair pair).getD initPairState)
      let s' := { s with per_pair := setKey s.per_pair pair res.1 }
      match res.2 with
      | none => ⟨s', [], true, false⟩
      | some msg =>
        if deliverOk then ⟨s', [msg], true, false⟩ else ⟨s', [], false, true⟩) := by
  simp only [evaluate_pair]
  rw [if_neg (by simp [hne]), if_neg hg]

/-! ### Claim theorems -/

/-- C1, counterexample: with the spec's Scenario 2 values
(`entryEMA = 1.1005`, `prevClose = 1.1006`, `latestClose = 1.1002`) and
`trendEMA = 1.1010` (so `latestClose < trendEMA`), a Long instrument is
left unchanged and no alert is emitted — the claimed "EXIT BUY,
independent of trendEMA" transition does not happen, because the exit
check is nested inside the `close > trend` branch of the source. -/
theorem C1_counterexample :
    signalStep ⟨11006/10000, 11002/10000, 11010/10000, 11005/10000⟩ ⟨true, some Side.buy⟩
        = (⟨true, some Side.buy⟩, none) ∧
    (11005 : ℚ)/10000 ≤ 11006/10000 ∧ (11002 : ℚ)/10000 < 11005/10000 ∧
    signalStep ⟨11006/10000, 11002/10000, 11010/10000, 11005/10000⟩ ⟨true, some Side.buy⟩
        ≠ (⟨false, none⟩, some "EXIT BUY") := by
  have h : signalStep ⟨11006/10000, 11002/10000, 11010/10000, 11005/10000⟩
      ⟨true, some Side.buy⟩ = (⟨true, some Side.buy⟩, none) := by
    norm_num [signalStep]
  exact ⟨h, by norm_num, by norm_num, by rw [h]; simp⟩

/-- C1, amended: a Long instrument transitions to Flat with "EXIT BUY"
when `prevClose >= entryEMA` and `latestClose < entryEMA` only if
additionally `latestClose > trendEMA`; when `latestClose <= trendEMA`
the Long state is left unchanged with no alert.  Symmetrically, a Short
instrument exits with "EXIT SELL" only if additionally
`latestClose < trendEMA`, and is left unchanged when
`latestClose >= trendEMA`. -/
theorem C1_exit_trend_gated (inp : SignalInput) :
    (inp.trend < inp.close → inp.entry ≤ inp.prevClose → inp.close < inp.entry →
      signalStep inp ⟨true, some Side.buy⟩ = (initPairState, some "EXIT BUY")) ∧
    (inp.close ≤ inp.trend →
      signalStep inp ⟨true, some Side.buy⟩ = (⟨true, some Side.buy⟩, none)) ∧
    (inp.close < inp.trend → inp.prevClose ≤ inp.entry → inp.entry < inp.close →
      signalStep inp ⟨true, some Side.sell⟩ = (initPairState, some "EXIT SELL")) ∧
    (inp.trend ≤ inp.close →
      signalStep inp ⟨true, some Side.sell⟩ = (⟨true, some Side.sell⟩, none)) := by
  refine ⟨?_, ?_, ?_, ?_⟩
  · intro h1 h2 h3
    simp [signalStep, h1, h2, h3, initPairState]
  · intro h
    unfold signalStep
    rw [if_neg (not_lt.mpr h)]
    by_cases h2 : inp.close < inp.trend
    · rw [if_pos h2]; simp
    · rw [if_neg h2]
  · intro h1 h2 h3
    simp [signalStep, h1, h2, h3, initPairState, not_lt.mpr (le_of_lt h1)]
  · intro h
    unfold signalStep
    by_cases h1 : inp.trend < inp.close
    · rw [if_pos h1]; simp
    · rw [if_neg h1, if_neg (not_lt.mpr h)]

/-- C1, witness for the amended theorem at concrete inputs: a gated
BUY exit, a blocked BUY exit under the trend, a gated SELL exit and a
blocked SELL exit above the trend. -/
theorem C1_exit_trend_gated_witness :
    ((0 : ℚ) < 1 ∧ (2 : ℚ) ≤ 3 ∧ (1 : ℚ) < 2 ∧
      signalStep ⟨3, 1, 0, 2⟩ ⟨true, some Side.buy⟩ = (initPairState, some "EXIT BUY")) ∧
    ((1 : ℚ) ≤ 5 ∧
      signalStep ⟨3, 1, 5, 2⟩ ⟨true, some Side.buy⟩ = (⟨true, some Side.buy⟩, none)) ∧
    ((4 : ℚ) < 5 ∧ (1 : ℚ) ≤ 2 ∧ (2 : ℚ) < 4 ∧
      signalStep ⟨1, 4, 5, 2⟩ ⟨true, some Side.sell⟩ = (initPairState, some "EXIT SELL")) ∧
    ((0 : ℚ) ≤ 3 ∧
      signalStep ⟨1, 3, 0, 2⟩ ⟨true, some Side.sell⟩ = (⟨true, some Side.sell⟩, none)) :=
  ⟨⟨by decide, by decide, by decide,
      (C1_exit_trend_gated ⟨3, 1, 0, 2⟩).1 (by decide) (by decide) (by decide)⟩,
   ⟨by decide, (C1_exit_trend_gated ⟨3, 1, 5, 2⟩).2.1 (by decide)⟩,
   ⟨by decide, by decide, by decide,
      (C1_exit_trend_gated ⟨1, 4, 5, 2⟩).2.2.1 (by decide) (by decide) (by decide)⟩,
   ⟨by decide, (C1_exit_trend_gated ⟨1, 3, 0, 2⟩).2.2.2 (by decide)⟩⟩

/-- C3: for every period `p >= 1`, `computeEMA` preserves the length of
the input, its first value is the first close, each later value obeys
`value[i] = close[i] * k + value[i-1] * (1 - k)` with `k = 2/(p+1)`,
and the empty input yields the empty output. -/
theorem C3_computeEMA_spec (p : ℕ) (_hp : 1 ≤ p) (closes : List ℚ) :
    (computeEMA p closes).length = closes.length ∧
    (computeEMA p closes)[0]? = closes[0]? ∧
    (∀ i c y, closes[i + 1]? = some c → (computeEMA p closes)[i]? = some y →
      (computeEMA p closes)[i + 1]? = some (c * emaK p + y * (1 - emaK p))) ∧
    computeEMA p [] = [] := by
  refine ⟨?_, ?_, ?_, rfl⟩
  · cases closes with
    | nil => rfl
    | cons x xs => simp [computeEMA, emaFrom_length]
  · cases closes with
    | nil => rfl
    | cons x xs => simp [computeEMA]
  · intro i c y hc hy
    cases closes with
    | nil => simp at hc
    | cons x xs =>
      cases i with
      | zero =>
        simp only [computeEMA, List.getElem?_cons_succ, List.getElem?_cons_zero,
          Option.some.injEq] at hc hy ⊢
        rw [emaFrom_head, hc]
        simp [hy]
      | succ i' =>
        simp only [computeEMA, List.getElem?_cons_succ] at hc hy ⊢
        exact emaFrom_succ (emaK p) xs x i' c y hc hy

/-- C3, witness: the specification instantiated at period 3 and the
close series `[0, 4]`. -/
theorem C3_computeEMA_spec_witness :
    1 ≤ 3 ∧
    ((computeEMA 3 [0, 4]).length = ([0, 4] : List ℚ).length ∧
     (computeEMA 3 [0, 4])[0]? = ([0, 4] : List ℚ)[0]? ∧
     (∀ i c y, ([0, 4] : List ℚ)[i + 1]? = some c → (computeEMA 3 [0, 4])[i]? = some y →
       (computeEMA 3 [0, 4])[i + 1]? = some (c * emaK 3 + y * (1 - emaK 3))) ∧
     computeEMA 3 [] = []) :=
  ⟨by decide, C3_computeEMA_spec 3 (by decide) [0, 4]⟩

/-- C7: every step of the crossover state machine preserves the
invariant `side == None` iff `inTrade == false`, and the state created
on first watch satisfies it. -/
theorem C7_invariant_preserved (inp : SignalInput) (ps : PairState)
    (h : ps.side = none ↔ ps.in_trade = false) :
    ((signalStep inp ps).1.side = none ↔ (signalStep inp ps).1.in_trade = false) ∧
    (initPairState.side = none ↔ initPairState.in_trade = false) :=
  ⟨signalStep_inv inp ps h, by decide⟩

/-- C7, witness: the invariant preserved across a concrete BUY entry
from the freshly created state. -/
theorem C7_invariant_preserved_witness :
    (initPairState.side = none ↔ initPairState.in_trade = false) ∧
    (((signalStep ⟨1, 3, 0, 2⟩ initPairState).1.side = none ↔
        (signalStep ⟨1, 3, 0, 2⟩ initPairState).1.in_trade = false) ∧
     (initPairState.side = none ↔ initPairState.in_trade = false)) :=
  ⟨by decide, C7_invariant_preserved ⟨1, 3, 0, 2⟩ initPairState (by decide)⟩

/-- C9: starting from any state satisfying the Flat/side invariant, if
step `i` emits an entry alert ("BUY NOW" or "SELL NOW") and a later step
`j` emits the same alert, then at some point `m` after step `i` and no
later than the start of step `j` the machine is exactly Flat — the same
side cannot be re-entered without first passing through Flat. -/
theorem C9_no_double_alerts (s0 : PairState) (inputs : ℕ → SignalInput)
    (hinv : s0.side = none ↔ s0.in_trade = false) (i j : ℕ) (hij : i < j)
    (hside : alertAt s0 inputs i = some "BUY NOW" ∨ alertAt s0 inputs i = some "SELL NOW")
    (hsame : alertAt s0 inputs j = alertAt s0 inputs i) :
    ∃ m, i < m ∧ m ≤ j ∧ stateAt s0 inputs m = initPairState := by
  refine ⟨j, hij, le_refl j, ?_⟩
  have hj : (signalStep (inputs j) (stateAt s0 inputs j)).2 = alertAt s0 inputs i := hsame
  have hin : (stateAt s0 inputs j).in_trade = false := by
    rcases hside with hb | hs
    · exact signalStep_buyNow_pre (inputs j) (stateAt s0 inputs j) (hj.trans hb)
    · exact signalStep_sellNow_pre (inputs j) (stateAt s0 inputs j) (hj.trans hs)
  exact PairState.eq_init _ hin ((stateAt_inv s0 inputs hinv j).mpr hin)

/-- Input stream used by the C9 witness: even steps present a BUY
crossover, odd steps present an EXIT BUY crossover. -/
def c9Inputs : ℕ → SignalInput :=
  fun n => if n % 2 = 0 then ⟨1, 3, 0, 2⟩ else ⟨3, 1, 0, 2⟩

/-- C9, witness: a concrete run that enters Long at step 0, exits at
step 1, and re-enters at step 2 — the guaranteed Flat point exists. -/
theorem C9_no_double_alerts_witness :
    (initPairState.side = none ↔ initPairState.in_trade = false) ∧ 0 < 2 ∧
    alertAt initPairState c9Inputs 0 = some "BUY NOW" ∧
    alertAt initPairState c9Inputs 2 = alertAt initPairState c9Inputs 0 ∧
    ∃ m, 0 < m ∧ m ≤ 2 ∧ stateAt initPairState c9Inputs m = initPairState :=
  ⟨by decide, by decide, by decide, by decide,
   C9_no_double_alerts initPairState c9Inputs (by decide) 0 2 (by decide)
     (Or.inl (by decide)) (by decide)⟩

/-- C2, code bug: when a BUY transition is produced and the delivery of
the alert raises, the exception propagates out of `evaluate_pair` before
line 171, so `save_state` never runs — the in-memory state carries the
new Long entry but the durable state does not (`saved = false`,
`raised = true`).  The same evaluation with a succeeding delivery does
save.  Concrete input: periods 3/3, closes `[0, 4]` (both EMAs end at
2), pair "EURUSD" starting Flat. -/
theorem C2_delivery_failure_blocks_save :
    evaluate_pair false (some [0, 4]) "EURUSD"
        { default_state with trend_ema := 3, entry_exit_ema := 3 } =
      ⟨{ default_state with
          trend_ema := 3
          entry_exit_ema := 3
          per_pair := [("EURUSD", ⟨true, some Side.buy⟩)] }, [], false, true⟩ ∧
    (evaluate_pair true (some [0, 4]) "EURUSD"
        { default_state with trend_ema := 3, entry_exit_ema := 3 }).saved = true := by
  have hm : mkInput { default_state with trend_ema := 3, entry_exit_ema := 3 } [0, 4]
      = ⟨0, 4, 2, 2⟩ := by
    norm_num [mkInput, computeEMA, emaFrom, emaK, latestClose, prevCloseOf, default_state,
      show (3 : Int).toNat = 3 from rfl]
  have hstep : signalStep
      (mkInput { default_state with trend_ema := 3, entry_exit_ema := 3 } [0, 4])
      ((lookupKey ({ default_state with
          trend_ema := 3, entry_exit_ema := 3 } : BotState).per_pair "EURUSD").getD
        initPairState) = (⟨true, some Side.buy⟩, some "BUY NOW") := by
    rw [hm]; decide
  constructor
  · simp only [evaluate_pair]
    rw [hstep]
    decide
  · simp only [evaluate_pair]
    rw [hstep]
    decide

/-- C4, code bug: `save_state` opens the state file with mode "w",
which truncates it in place before `json.dump` writes anything; a crash
at that point leaves an empty file, which is neither the old nor the new
JSON document (every `json.dump` of the state dict starts with "\x7b").
The source has no write-to-temporary-file-then-rename step, so the save
is not atomic with respect to a crash. -/
theorem C4_save_crash_truncation :
    ∃ content ∈ save_state_crash_contents "\x7b\"running\": true\x7d",
      content ≠ "\x7b\"running\": false\x7d" ∧ content ≠ "\x7b\"running\": true\x7d" :=
  ⟨"", by decide, by decide, by decide⟩

/-- C5, code bug: the `/setema` handler parses the period with `int()`
but never checks it against the `period >= 1` precondition: supplying 0
mutates the configuration to `trend_ema = 0` and persists it, and the
next evaluation cycle hands the invalid period to the core, where
`ewm(span=0)` raises (per-pair exception, so no instrument is ever
evaluated again successfully). -/
theorem C5_set_ema_accepts_nonpositive :
    set_ema_command "trend" (some 0) default_state
        = ({ default_state with trend_ema := 0 }, true) ∧
    (set_ema_command "trend" (some 0) default_state).1.trend_ema = 0 ∧
    (evaluate_pair true (some [1]) "EURUSD" { default_state with trend_ema := 0 }).raised
        = true ∧
    (evaluate_pair true (some [1]) "EURUSD" { default_state with trend_ema := 0 }).state
        = { default_state with trend_ema := 0 } := by
  refine ⟨by decide, by decide, by decide, by decide⟩

/-- C6, counterexample: on a missing store `load_state` does not return
an empty per-instrument map — the fresh-install branch seeds a Flat
entry for the default watchlist pair "EURUSD". -/
theorem C6_fresh_map_counterexample :
    (load_state none).per_pair = [("EURUSD", initPairState)] ∧
    (load_state none).per_pair ≠ [] := by
  refine ⟨by decide, by decide⟩

/-- C6, amended: `load_state` never fails on a missing store: with no
stored document it returns the compiled-in defaults with `running =
false`, no notification target, and the per-instrument map seeded with a
Flat entry for each default watchlist pair (so not empty); with a stored
document, every configuration key missing from it is filled from the
defaults (`getD`), and every unknown extra key is preserved unchanged by
the next `save_state`. -/
theorem C6_load_amended (doc : StoredDoc) :
    load_state none = { default_state with per_pair := [("EURUSD", initPairState)] } ∧
    (load_state none).running = false ∧
    (load_state none).default_chat_id = none ∧
    (load_state (some doc)).running = doc.running?.getD default_state.running ∧
    (load_state (some doc)).pairs = doc.pairs?.getD default_state.pairs ∧
    (load_state (some doc)).trend_ema = doc.trend_ema?.getD default_state.trend_ema ∧
    (load_state (some doc)).entry_exit_ema
        = doc.entry_exit_ema?.getD default_state.entry_exit_ema ∧
    (load_state (some doc)).timeframe = doc.timeframe?.getD default_state.timeframe ∧
    (load_state (some doc)).per_pair = doc.per_pair?.getD default_state.per_pair ∧
    (load_state (some doc)).default_chat_id
        = doc.default_chat_id?.getD default_state.default_chat_id ∧
    (save_state (load_state (some doc))).extra = doc.extra :=
  ⟨by decide, by decide, by decide, rfl, rfl, rfl, rfl, rfl, rfl, rfl, rfl⟩

/-- Stored document used by the C6 witness: only `trend_ema` is
present, plus an unknown extra key from a manual edit. -/
def c6Doc : StoredDoc :=
  { running? := none
    pairs? := none
    trend_ema? := some 5
    entry_exit_ema? := none
    timeframe? := none
    per_pair? := none
    default_chat_id? := none
    extra := [("note", "hand edited")] }

/-- C6, witness: the amended load/save behaviour at a concrete stored
document missing most keys and carrying an unknown extra key. -/
theorem C6_load_amended_witness :
    load_state none = { default_state with per_pair := [("EURUSD", initPairState)] } ∧
    (load_state none).running = false ∧
    (load_state none).default_chat_id = none ∧
    (load_state (some c6Doc)).running = c6Doc.running?.getD default_state.running ∧
    (load_state (some c6Doc)).pairs = c6Doc.pairs?.getD default_state.pairs ∧
    (load_state (some c6Doc)).trend_ema = c6Doc.trend_ema?.getD default_state.trend_ema ∧
    (load_state (some c6Doc)).entry_exit_ema
        = c6Doc.entry_exit_ema?.getD default_state.entry_exit_ema ∧
    (load_state (some c6Doc)).timeframe = c6Doc.timeframe?.getD default_state.timeframe ∧
    (load_state (some c6Doc)).per_pair = c6Doc.per_pair?.getD default_state.per_pair ∧
    (load_state (some c6Doc)).default_chat_id
        = c6Doc.default_chat_id?.getD default_state.default_chat_id ∧
    (save_state (load_state (some c6Doc))).extra = c6Doc.extra :=
  C6_load_amended c6Doc

/-- C8: when the provider returns `absent` (None) for a pair, its
evaluation leaves the state untouched and performs no save; the same
holds for an empty series; and the cycle over the remaining watched
pairs proceeds exactly as if the absent pair were not present — the
other instruments are still evaluated and may still alert. -/
theorem C8_absent_fetch_skips (deliverOk : Bool) (fetch : String → Option (List ℚ))
    (s : BotState) (p : String) (rest : List String) (h : fetch p = none) :
    evaluate_pair deliverOk (fetch p) p s = ⟨s, [], false, false⟩ ∧
    (∀ q, evaluate_pair deliverOk (some []) q s = ⟨s, [], false, false⟩) ∧
    runCycle deliverOk fetch s (p :: rest) = runCycle deliverOk fetch s rest := by
  have h1 : evaluate_pair deliverOk (fetch p) p s = ⟨s, [], false, false⟩ := by
    rw [h]; rfl
  refine ⟨h1, fun q => rfl, ?_⟩
  simp only [runCycle]
  rw [h1]
  simp

/-- Fetch oracle for the C8 witness: EURUSD has data, GBPUSD is absent. -/
def c8Fetch : String → Option (List ℚ) :=
  fun q => if q = "GBPUSD" then none else some [0, 4]

/-- C8, witness: the absent pair GBPUSD is skipped and the cycle equals
the cycle over the remaining pair alone. -/
theorem C8_absent_fetch_skips_witness :
    c8Fetch "GBPUSD" = none ∧
    (evaluate_pair true (c8Fetch "GBPUSD") "GBPUSD" default_state
        = ⟨default_state, [], false, false⟩ ∧
     (∀ q, evaluate_pair true (some []) q default_state
        = ⟨default_state, [], false, false⟩) ∧
     runCycle true c8Fetch default_state ("GBPUSD" :: ["EURUSD"])
        = runCycle true c8Fetch default_state ["EURUSD"]) :=
  ⟨by decide,
   C8_absent_fetch_skips true c8Fetch default_state "GBPUSD" ["EURUSD"] (by decide)⟩

/-- C10: a watched pair with no entry in the per-instrument map is
evaluated exactly as if a Flat entry `{in_trade: false, side: None}` had
been created first (`setdefault`), and the crossover step it undergoes
is the one from `initPairState` — it is never treated as Long or Short
unless its stored state says so. -/
theorem C10_missing_entry_flat (deliverOk : Bool) (closes : List ℚ) (pair : String)
    (s : BotState) (hne : closes.isEmpty = false)
    (h1 : 1 ≤ s.trend_ema) (h2 : 1 ≤ s.entry_exit_ema)
    (h : lookupKey s.per_pair pair = none) :
    evaluate_pair deliverOk (some closes) pair s =
      evaluate_pair deliverOk (some closes) pair
        { s with per_pair := setKey s.per_pair pair initPairState } ∧
    (evaluate_pair deliverOk (some closes) pair s).state.per_pair =
      setKey s.per_pair pair (signalStep (mkInput s closes) initPairState).1 := by
  have hg : ¬(s.trend_ema < 1 ∨ s.entry_exit_ema < 1) := by omega
  have hg' : ¬(({ s with per_pair := setKey s.per_pair pair initPairState } :
      BotState).trend_ema < 1 ∨
      ({ s with per_pair := setKey s.per_pair pair initPairState } :
      BotState).entry_exit_ema < 1) := hg
  have hmk : mkInput { s with per_pair := setKey s.per_pair pair initPairState } closes
      = mkInput s closes := rfl
  constructor
  · rw [evaluate_pair_some _ _ _ _ hne hg, evaluate_pair_some _ _ _ _ hne hg',
      h, lookupKey_setKey, hmk]
    simp only [Option.getD_some, Option.getD_none]
    rw [setKey_setKey]
  · rw [evaluate_pair_some _ _ _ _ hne hg, h]
    simp only [Option.getD_none]
    rcases hres : signalStep (mkInput s closes) initPairState with ⟨ps', a⟩
    cases a with
    | none => simp
    | some msg => cases deliverOk <;> simp

/-- C10, witness: evaluating the unwatched-in-state pair GBPUSD on the
default state (which has no GBPUSD entry). -/
theorem C10_missing_entry_flat_witness :
    (([0, 4] : List ℚ).isEmpty = false ∧ 1 ≤ default_state.trend_ema ∧
      1 ≤ default_state.entry_exit_ema ∧
      lookupKey default_state.per_pair "GBPUSD" = none) ∧
    (evaluate_pair true (some [0, 4]) "GBPUSD" default_state =
       evaluate_pair true (some [0, 4]) "GBPUSD"
         { default_state with
            per_pair := setKey default_state.per_pair "GBPUSD" initPairState } ∧
     (evaluate_pair true (some [0, 4]) "GBPUSD" default_state).state.per_pair =
       setKey default_state.per_pair "GBPUSD"
         (signalStep (mkInput default_state [0, 4]) initPairState).1) :=
  ⟨⟨by decide, by decide, by decide, by decide⟩,
   C10_missing_entry_flat true [0, 4] "GBPUSD" default_state
     (by decide) (by decide) (by decide) (by decide)⟩
